import Mathlib

/-!
Shallow embedding of the PY32F4xx HAL UART driver (src file py32f4xx_hal_uart.c)
and proofs about its transfer state machine.

Modelling conventions:
- Machine registers are projected onto the named bits the driver reads and
  writes: CR1 interrupt enables, CR3 (EIE, DMAR, DMAT), SR status flags.
  Register bits the driver touches but never reads back for control flow
  (UE, M, PCE, PS, TE, RE, STOP, BRR, LINEN, CLKEN, SCEN, HDSEL, IREN, ADD,
  WAKE, SBK, RWU) are outside the projection and their writes are omitted.
- The ErrorCode bitmask is modelled field-wise: each named bit of the C
  bitmask (PE, NE, FE, ORE, DMA) is one Bool field; bitwise OR of a named
  constant becomes setting that field, the test against HAL_UART_ERROR_NONE
  becomes comparison with UartError.NONE.
- C pointers are addresses (Nat); NULL is the address 0; the 9-bit
  alignment test on a pointer p is p % 2 = 1, mirroring (p & 1) != 0.
- uint16 transfer counters live in Nat; the uint16 pre-decrement of the
  interrupt service routines is dec16 (wraparound made explicit by % 65536).
- Callback invocations are events appended to a trace list, in invocation
  order.  Requesting an asynchronous DMA abort or start of a channel is
  also recorded as an event, so ordering claims can be stated.
- The DMA driver itself (HAL_DMA_Abort, HAL_DMA_Abort_IT, HAL_DMA_GetError)
  is not part of the repository sources; those three entry points are
  modelled from the spec, see their doc comments.
-/

set_option maxHeartbeats 1000000

namespace PY32UART

/-- HAL_StatusTypeDef result codes. -/
inductive HALStatus
  | ok
  | error
  | busy
  | timeout
deriving DecidableEq, Repr

/-- HAL_UART_StateTypeDef values used by the driver. -/
inductive HALUartState
  | reset
  | ready
  | busy
  | busyTx
  | busyRx
  | timeout
  | error
deriving DecidableEq, Repr

/-- UART_WORDLENGTH configuration values. -/
inductive WordLength
  | eightBits
  | nineBits
deriving DecidableEq, Repr

/-- UART_PARITY configuration values. -/
inductive ParityCfg
  | parityNone
  | parityEven
  | parityOdd
deriving DecidableEq, Repr

/-- The part of UART_InitTypeDef the driver's transfer paths read. -/
structure UartInitCfg where
  wordLength : WordLength
  parity : ParityCfg
deriving DecidableEq, Repr

/-- The CR1 interrupt-enable bits the driver reads and writes. -/
structure CR1Reg where
  rxneie : Bool
  peie : Bool
  txeie : Bool
  tcie : Bool
  idleie : Bool
deriving DecidableEq, Repr

/-- The CR3 bits the driver reads and writes for transfer control. -/
structure CR3Reg where
  eie : Bool
  dmar : Bool
  dmat : Bool
deriving DecidableEq, Repr

/-- The SR status flags the driver reads. -/
structure SRReg where
  pe : Bool
  fe : Bool
  ne : Bool
  ore : Bool
  rxne : Bool
  idle : Bool
  txe : Bool
  tc : Bool
deriving DecidableEq, Repr

/-- The ErrorCode bitmask, one field per named bit of the C constant set
HAL_UART_ERROR_PE, HAL_UART_ERROR_NE, HAL_UART_ERROR_FE, HAL_UART_ERROR_ORE,
HAL_UART_ERROR_DMA. -/
structure UartError where
  pe : Bool
  ne : Bool
  fe : Bool
  ore : Bool
  dma : Bool
deriving DecidableEq, Repr

/-- HAL_UART_ERROR_NONE: the empty error bitmask. -/
def UartError.NONE : UartError :=
  { pe := false, ne := false, fe := false, ore := false, dma := false }

/-- HAL_UART_ERROR_DMA written by assignment (not OR) in the blocking abort
paths of the driver. -/
def UartError.DMAONLY : UartError :=
  { pe := false, ne := false, fe := false, ore := false, dma := true }

/-- Identifiers for the driver functions that can be installed in a DMA
channel callback slot (function pointers in the C source). -/
inductive DmaCbId
  | uartDMATransmitCplt
  | uartDMATxHalfCplt
  | uartDMAReceiveCplt
  | uartDMARxHalfCplt
  | uartDMAError
  | uartDMATxAbortCallback
  | uartDMARxAbortCallback
  | uartDMAAbortOnError
  | uartDMATxOnlyAbortCallback
  | uartDMARxOnlyAbortCallback
deriving DecidableEq, Repr

/-- DMA_HandleTypeDef as the UART driver sees it: the four callback slots it
writes, plus two oracle fields standing for the DMA driver that is not in
the repository sources.

Modelled from the spec: the DMA engine exposes Abort (blocking) and
AbortAsync (schedules an abort-complete callback) and GetError; abortItOk
is the success of AbortAsync for this channel, abortOk the success of the
blocking Abort, and dmaError the value GetError reports. -/
structure DMAHandle where
  xferCpltCallback : Option DmaCbId
  xferHalfCpltCallback : Option DmaCbId
  xferErrorCallback : Option DmaCbId
  xferAbortCallback : Option DmaCbId
  abortItOk : Bool
  abortOk : Bool
  dmaError : Nat
deriving DecidableEq, Repr

/-- HAL_DMA_ERROR_TIMEOUT constant of the DMA driver. -/
def HAL_DMA_ERROR_TIMEOUT : Nat := 32

/-- Modelled from the spec: AbortAsync of the DMA engine -- requests an
asynchronous channel abort, returns a status; on success the armed
xferAbortCallback fires later (delivered by dmaTxAbortComplete or
dmaRxAbortComplete below). The DMA driver source is not in the repository;
the oracle field abortItOk stands for its result. -/
def HAL_DMA_Abort_IT (d : DMAHandle) : HALStatus :=
  if d.abortItOk then HALStatus.ok else HALStatus.error

/-- Modelled from the spec: the blocking Abort of the DMA engine, which
waits for channel teardown and returns a status. The oracle field abortOk
stands for its result. -/
def HAL_DMA_Abort (d : DMAHandle) : HALStatus :=
  if d.abortOk then HALStatus.ok else HALStatus.error

/-- Modelled from the spec: GetError of the DMA engine. -/
def HAL_DMA_GetError (d : DMAHandle) : Nat :=
  d.dmaError

/-- UART_HandleTypeDef projected onto the fields the claims are about. -/
structure UartHandle where
  cr1 : CR1Reg
  cr3 : CR3Reg
  sr : SRReg
  init : UartInitCfg
  gState : HALUartState
  rxState : HALUartState
  errorCode : UartError
  txXferSize : Nat
  txXferCount : Nat
  rxXferSize : Nat
  rxXferCount : Nat
  pTxBuffPtr : Nat
  pRxBuffPtr : Nat
  hdmatx : Option DMAHandle
  hdmarx : Option DMAHandle
deriving DecidableEq, Repr

/-- Observable callback invocations and DMA requests, in invocation order. -/
inductive UartEvent
  | errorCallback
  | abortCpltCallback
  | abortTransmitCpltCallback
  | abortReceiveCpltCallback
  | rxCpltCallback
  | rxHalfCpltCallback
  | txCpltCallback
  | txHalfCpltCallback
  | idleCallback
  | dmaAbortRequest (isRx : Bool)
  | dmaStartRequest (isRx : Bool)
deriving DecidableEq, Repr

/-- uint16 pre-decrement with explicit wraparound. -/
def dec16 (n : Nat) : Nat := (n + 65535) % 65536

/-- uint32 subtraction with explicit wraparound, as in HAL_GetTick() - Tickstart. -/
def sub32 (a b : Nat) : Nat := (a + 4294967296 - b % 4294967296) % 4294967296

/-- HAL_MAX_DELAY. -/
def HAL_MAX_DELAY : Nat := 4294967295

/-- UART_EndTxTransfer: disable TXEIE and TCIE, restore gState to Ready. -/
def UART_EndTxTransfer (h : UartHandle) : UartHandle :=
  { h with cr1 := { h.cr1 with txeie := false, tcie := false },
           gState := HALUartState.ready }

/-- UART_EndRxTransfer: disable RXNEIE, PEIE and EIE, restore RxState to Ready. -/
def UART_EndRxTransfer (h : UartHandle) : UartHandle :=
  { h with cr1 := { h.cr1 with rxneie := false, peie := false },
           cr3 := { h.cr3 with eie := false },
           rxState := HALUartState.ready }

/-- UART_Receive_IT: receive one data unit in interrupt mode.  Reads DR into
the caller buffer (buffer contents abstracted; the pointer advance by one or
two bytes is kept), pre-decrements RxXferCount, and on reaching zero disables
RXNE, PE and ERR interrupts, restores RxState to Ready and invokes the Rx
complete callback.  Returns unchanged when no Rx process is ongoing. -/
def UART_Receive_IT (h : UartHandle) : UartHandle × List UartEvent :=
  if h.rxState = HALUartState.busyRx then
    let step : Nat :=
      if h.init.wordLength = WordLength.nineBits ∧ h.init.parity = ParityCfg.parityNone
      then 2 else 1
    let h1 := { h with pRxBuffPtr := h.pRxBuffPtr + step }
    let c := dec16 h1.rxXferCount
    let h2 := { h1 with rxXferCount := c }
    if c = 0 then
      ({ h2 with cr1 := { h2.cr1 with rxneie := false, peie := false },
                 cr3 := { h2.cr3 with eie := false },
                 rxState := HALUartState.ready },
       [UartEvent.rxCpltCallback])
    else (h2, [])
  else (h, [])

/-- UART_Transmit_IT: push one data unit in interrupt mode.  Writes the next
unit to DR (data abstracted; the pointer advance by one or two bytes is
kept), pre-decrements TxXferCount, and on reaching zero swaps the TXE
interrupt for the TC interrupt.  Returns unchanged when no Tx process is
ongoing. -/
def UART_Transmit_IT (h : UartHandle) : UartHandle × List UartEvent :=
  if h.gState = HALUartState.busyTx then
    let step : Nat :=
      if h.init.wordLength = WordLength.nineBits ∧ h.init.parity = ParityCfg.parityNone
      then 2 else 1
    let h1 := { h with pTxBuffPtr := h.pTxBuffPtr + step }
    let c := dec16 h1.txXferCount
    let h2 := { h1 with txXferCount := c }
    if c = 0 then
      ({ h2 with cr1 := { h2.cr1 with txeie := false, tcie := true } }, [])
    else (h2, [])
  else (h, [])

/-- UART_EndTransmit_IT: disable TC interrupt, restore gState to Ready,
invoke the Tx complete callback. -/
def UART_EndTransmit_IT (h : UartHandle) : UartHandle × List UartEvent :=
  ({ h with cr1 := { h.cr1 with tcie := false }, gState := HALUartState.ready },
   [UartEvent.txCpltCallback])

/-- UART_DMAAbortOnError: end-of-DMA-abort callback armed by the interrupt
handler on a blocking error; zeroes both transfer counters and invokes the
user error callback. -/
def UART_DMAAbortOnError (h : UartHandle) : UartHandle × List UartEvent :=
  ({ h with rxXferCount := 0, txXferCount := 0 }, [UartEvent.errorCallback])

/-- UART_DMATxAbortCallback: Tx side of the abort join.  Clears its own
channel callback slot; if the Rx channel still has a live abort callback the
join is not complete and nothing more happens; otherwise zeroes counters,
resets ErrorCode, restores both states to Ready and invokes the user abort
complete callback. -/
def UART_DMATxAbortCallback (h : UartHandle) : UartHandle × List UartEvent :=
  let h1 := { h with hdmatx := h.hdmatx.map (fun d => { d with xferAbortCallback := none }) }
  let pending : Bool :=
    match h1.hdmarx with
    | some d => d.xferAbortCallback.isSome
    | none => false
  if pending then (h1, [])
  else
    ({ h1 with txXferCount := 0, rxXferCount := 0, errorCode := UartError.NONE,
               gState := HALUartState.ready, rxState := HALUartState.ready },
     [UartEvent.abortCpltCallback])

/-- UART_DMARxAbortCallback: Rx side of the abort join, symmetric to
UART_DMATxAbortCallback. -/
def UART_DMARxAbortCallback (h : UartHandle) : UartHandle × List UartEvent :=
  let h1 := { h with hdmarx := h.hdmarx.map (fun d => { d with xferAbortCallback := none }) }
  let pending : Bool :=
    match h1.hdmatx with
    | some d => d.xferAbortCallback.isSome
    | none => false
  if pending then (h1, [])
  else
    ({ h1 with txXferCount := 0, rxXferCount := 0, errorCode := UartError.NONE,
               gState := HALUartState.ready, rxState := HALUartState.ready },
     [UartEvent.abortCpltCallback])

/-- UART_DMATxOnlyAbortCallback: abort-complete bridge of the Tx-only
asynchronous abort. -/
def UART_DMATxOnlyAbortCallback (h : UartHandle) : UartHandle × List UartEvent :=
  ({ h with txXferCount := 0, gState := HALUartState.ready },
   [UartEvent.abortTransmitCpltCallback])

/-- UART_DMARxOnlyAbortCallback: abort-complete bridge of the Rx-only
asynchronous abort. -/
def UART_DMARxOnlyAbortCallback (h : UartHandle) : UartHandle × List UartEvent :=
  ({ h with rxXferCount := 0, rxState := HALUartState.ready },
   [UartEvent.abortReceiveCpltCallback])

/-- Dispatch a DMA channel callback identifier to the driver function it
names (the function-pointer call of the C source). -/
def runAbortCb : DmaCbId → UartHandle → UartHandle × List UartEvent
  | DmaCbId.uartDMATxAbortCallback, h => UART_DMATxAbortCallback h
  | DmaCbId.uartDMARxAbortCallback, h => UART_DMARxAbortCallback h
  | DmaCbId.uartDMAAbortOnError, h => UART_DMAAbortOnError h
  | DmaCbId.uartDMATxOnlyAbortCallback, h => UART_DMATxOnlyAbortCallback h
  | DmaCbId.uartDMARxOnlyAbortCallback, h => UART_DMARxOnlyAbortCallback h
  | _, h => (h, [])

/-- Modelled from the spec: delivery of the Tx DMA channel abort-complete
event -- the DMA engine, once its asynchronous abort finishes, invokes the
XferAbortCallback armed on the channel, with the owning UART handle as
parent.  No-op when no callback is armed. -/
def dmaTxAbortComplete (h : UartHandle) : UartHandle × List UartEvent :=
  match h.hdmatx with
  | some d =>
    match d.xferAbortCallback with
    | some cb => runAbortCb cb h
    | none => (h, [])
  | none => (h, [])

/-- Modelled from the spec: delivery of the Rx DMA channel abort-complete
event, symmetric to dmaTxAbortComplete. -/
def dmaRxAbortComplete (h : UartHandle) : UartHandle × List UartEvent :=
  match h.hdmarx with
  | some d =>
    match d.xferAbortCallback with
    | some cb => runAbortCb cb h
    | none => (h, [])
  | none => (h, [])

/-- The error-code accumulation block of HAL_UART_IRQHandler: OR each line
error whose status flag is set and whose interrupt source is enabled into
ErrorCode. -/
def uartIrqErrorCode (h : UartHandle) : UartError :=
  { pe := h.errorCode.pe || (h.sr.pe && h.cr1.peie),
    ne := h.errorCode.ne || (h.sr.ne && h.cr3.eie),
    fe := h.errorCode.fe || (h.sr.fe && h.cr3.eie),
    ore := h.errorCode.ore || (h.sr.ore && h.cr3.eie),
    dma := h.errorCode.dma }

/-- The drain step of the error branch of HAL_UART_IRQHandler: with the
accumulated error code stored, consume one already-available data unit when
RXNE is flagged and enabled. -/
def uartIrqDrain (h : UartHandle) : UartHandle × List UartEvent :=
  let h1 := { h with errorCode := uartIrqErrorCode h }
  if h.sr.rxne ∧ h.cr1.rxneie then UART_Receive_IT h1 else (h1, [])

/-- HAL_UART_IRQHandler: snapshot SR, CR1 and CR3 once, then dispatch in the
priority order of the source: error-free receive, line-error handling
(accumulate, drain, blocking or non-blocking treatment), idle detection
falling through to the transmitter, TXE service, TC service. -/
def HAL_UART_IRQHandler (h : UartHandle) : UartHandle × List UartEvent :=
  let isrflags := h.sr
  let cr1its := h.cr1
  let cr3its := h.cr3
  let errorflags := isrflags.pe || isrflags.fe || isrflags.ore || isrflags.ne
  if errorflags = false ∧ isrflags.rxne ∧ cr1its.rxneie then
    UART_Receive_IT h
  else if errorflags ∧ (cr3its.eie ∨ cr1its.rxneie ∨ cr1its.peie) then
    let ec := uartIrqErrorCode h
    if ec ≠ UartError.NONE then
      let dr := uartIrqDrain h
      let h2 := dr.1
      let dmarequest := h2.cr3.dmar
      if ec.ore ∨ dmarequest then
        let h3 := UART_EndRxTransfer h2
        if h3.cr3.dmar then
          let h4 := { h3 with cr3 := { h3.cr3 with dmar := false } }
          match h4.hdmarx with
          | some d =>
            let d1 : DMAHandle := { d with xferAbortCallback := some DmaCbId.uartDMAAbortOnError }
            let h5 := { h4 with hdmarx := some d1 }
            if HAL_DMA_Abort_IT d1 ≠ HALStatus.ok then
              let ab := UART_DMAAbortOnError h5
              (ab.1, dr.2 ++ [UartEvent.dmaAbortRequest true] ++ ab.2)
            else
              (h5, dr.2 ++ [UartEvent.dmaAbortRequest true])
          | none => (h4, dr.2 ++ [UartEvent.errorCallback])
        else
          (h3, dr.2 ++ [UartEvent.errorCallback])
      else
        ({ h2 with errorCode := UartError.NONE }, dr.2 ++ [UartEvent.errorCallback])
    else ({ h with errorCode := ec }, [])
  else if isrflags.idle ∧ cr1its.idleie then
    let h1 := { h with sr := { h.sr with idle := false } }
    let tr :=
      if isrflags.txe ∧ cr1its.txeie then UART_Transmit_IT h1
      else if isrflags.tc ∧ cr1its.tcie then UART_EndTransmit_IT h1
      else (h1, [])
    (tr.1, UartEvent.idleCallback :: tr.2)
  else if isrflags.txe ∧ cr1its.txeie then
    UART_Transmit_IT h
  else if isrflags.tc ∧ cr1its.tcie then
    UART_EndTransmit_IT h
  else (h, [])

/-- Hardware environment of the blocking polling loops: the SR contents
observed at the n-th poll, the tick value HAL_GetTick returns at the n-th
poll, and the tick read once at transfer entry. -/
structure HwEnv where
  srAt : Nat → SRReg
  tickAt : Nat → Nat
  startTick : Nat

/-- UART_WaitOnFlagUntilTimeout: spin while the selected flag equals Status;
on a finite deadline overrun, disable the TXE, RXNE and PE interrupt enables
and EIE, force both gState and RxState to Ready and return Timeout.  The
loop is driven by fuel (number of polls the caller is willing to model) and
a running poll index n; none means the fuel ran out with the loop still
spinning. -/
def UART_WaitOnFlagUntilTimeout (flagOf : SRReg → Bool) (status : Bool)
    (tickstart timeoutMs : Nat) (env : HwEnv) :
    Nat → Nat → UartHandle → Option (HALStatus × UartHandle × Nat)
  | 0, _, _ => none
  | fuel + 1, n, h =>
    if flagOf (env.srAt n) = status then
      if timeoutMs ≠ HAL_MAX_DELAY ∧ (timeoutMs = 0 ∨ sub32 (env.tickAt n) tickstart > timeoutMs) then
        some (HALStatus.timeout,
          { h with cr1 := { h.cr1 with rxneie := false, peie := false, txeie := false },
                   cr3 := { h.cr3 with eie := false },
                   gState := HALUartState.ready, rxState := HALUartState.ready },
          n + 1)
      else
        UART_WaitOnFlagUntilTimeout flagOf status tickstart timeoutMs env fuel (n + 1) h
    else some (HALStatus.ok, h, n + 1)

/-- The data loop of the blocking HAL_UART_Transmit: while TxXferCount is
positive, wait for TXE (propagating a Timeout), write the next unit to DR
(the data and the local pointer stepping are abstracted) and decrement the
counter. -/
def txDataLoop (env : HwEnv) (tickstart timeoutMs : Nat) :
    Nat → Nat → UartHandle → Option (HALStatus × UartHandle × Nat)
  | 0, n, h => if h.txXferCount = 0 then some (HALStatus.ok, h, n) else none
  | fuel + 1, n, h =>
    if h.txXferCount = 0 then some (HALStatus.ok, h, n)
    else
      match UART_WaitOnFlagUntilTimeout (fun sr => sr.txe) false tickstart timeoutMs env (fuel + 1) n h with
      | none => none
      | some (st, h1, n1) =>
        if st = HALStatus.ok then
          txDataLoop env tickstart timeoutMs fuel n1 { h1 with txXferCount := h1.txXferCount - 1 }
        else some (st, h1, n1)

/-- The data loop of the blocking HAL_UART_Receive: while RxXferCount is
positive, wait for RXNE (propagating a Timeout), read DR into the caller
buffer (abstracted) and decrement the counter. -/
def rxDataLoop (env : HwEnv) (tickstart timeoutMs : Nat) :
    Nat → Nat → UartHandle → Option (HALStatus × UartHandle × Nat)
  | 0, n, h => if h.rxXferCount = 0 then some (HALStatus.ok, h, n) else none
  | fuel + 1, n, h =>
    if h.rxXferCount = 0 then some (HALStatus.ok, h, n)
    else
      match UART_WaitOnFlagUntilTimeout (fun sr => sr.rxne) false tickstart timeoutMs env (fuel + 1) n h with
      | none => none
      | some (st, h1, n1) =>
        if st = HALStatus.ok then
          rxDataLoop env tickstart timeoutMs fuel n1 { h1 with rxXferCount := h1.rxXferCount - 1 }
        else some (st, h1, n1)

/-- HAL_UART_Transmit: blocking transmit.  Rejects with Busy when gState is
not Ready, with Error on a null pointer, a zero length, or a 9-bit
no-parity buffer at an odd address; otherwise clears ErrorCode, enters
BusyTx, runs the data loop, waits for TC, and restores gState to Ready. -/
def HAL_UART_Transmit (h : UartHandle) (pData size timeoutMs : Nat) (env : HwEnv)
    (fuel : Nat) : Option (HALStatus × UartHandle) :=
  if h.gState = HALUartState.ready then
    if pData = 0 ∨ size = 0 then some (HALStatus.error, h)
    else if h.init.wordLength = WordLength.nineBits ∧ h.init.parity = ParityCfg.parityNone ∧ pData % 2 ≠ 0 then
      some (HALStatus.error, h)
    else
      let tickstart := env.startTick
      let h1 := { h with errorCode := UartError.NONE, gState := HALUartState.busyTx,
                         txXferSize := size, txXferCount := size }
      match txDataLoop env tickstart timeoutMs fuel 0 h1 with
      | none => none
      | some (st, h2, n2) =>
        if st ≠ HALStatus.ok then some (HALStatus.timeout, h2)
        else
          match UART_WaitOnFlagUntilTimeout (fun sr => sr.tc) false tickstart timeoutMs env fuel n2 h2 with
          | none => none
          | some (st2, h3, _) =>
            if st2 ≠ HALStatus.ok then some (HALStatus.timeout, h3)
            else some (HALStatus.ok, { h3 with gState := HALUartState.ready })
  else some (HALStatus.busy, h)

/-- HAL_UART_Receive: blocking receive.  Rejects with Busy when RxState is
not Ready, with Error on a null pointer, a zero length, or a 9-bit
no-parity buffer at an odd address; otherwise clears ErrorCode, enters
BusyRx, runs the data loop and restores RxState to Ready. -/
def HAL_UART_Receive (h : UartHandle) (pData size timeoutMs : Nat) (env : HwEnv)
    (fuel : Nat) : Option (HALStatus × UartHandle) :=
  if h.rxState = HALUartState.ready then
    if pData = 0 ∨ size = 0 then some (HALStatus.error, h)
    else if h.init.wordLength = WordLength.nineBits ∧ h.init.parity = ParityCfg.parityNone ∧ pData % 2 ≠ 0 then
      some (HALStatus.error, h)
    else
      let tickstart := env.startTick
      let h1 := { h with errorCode := UartError.NONE, rxState := HALUartState.busyRx,
                         rxXferSize := size, rxXferCount := size }
      match rxDataLoop env tickstart timeoutMs fuel 0 h1 with
      | none => none
      | some (st, h2, _) =>
        if st ≠ HALStatus.ok then some (HALStatus.timeout, h2)
        else some (HALStatus.ok, { h2 with rxState := HALUartState.ready })
  else some (HALStatus.busy, h)

/-- HAL_UART_Transmit_IT: start an interrupt-mode transmit.  No alignment
check is performed in the source.  Stores the buffer view, clears
ErrorCode, enters BusyTx and enables the TXE interrupt. -/
def HAL_UART_Transmit_IT (h : UartHandle) (pData size : Nat) :
    HALStatus × UartHandle × List UartEvent :=
  if h.gState = HALUartState.ready then
    if pData = 0 ∨ size = 0 then (HALStatus.error, h, [])
    else
      let h1 := { h with pTxBuffPtr := pData, txXferSize := size, txXferCount := size,
                         errorCode := UartError.NONE, gState := HALUartState.busyTx }
      (HALStatus.ok, { h1 with cr1 := { h1.cr1 with txeie := true } }, [])
  else (HALStatus.busy, h, [])

/-- HAL_UART_Receive_IT: start an interrupt-mode receive.  No alignment
check is performed in the source.  Stores the buffer view, clears
ErrorCode, enters BusyRx and enables the PE, ERR and RXNE interrupts. -/
def HAL_UART_Receive_IT (h : UartHandle) (pData size : Nat) :
    HALStatus × UartHandle × List UartEvent :=
  if h.rxState = HALUartState.ready then
    if pData = 0 ∨ size = 0 then (HALStatus.error, h, [])
    else
      let h1 := { h with pRxBuffPtr := pData, rxXferSize := size, rxXferCount := size,
                         errorCode := UartError.NONE, rxState := HALUartState.busyRx }
      (HALStatus.ok,
       { h1 with cr1 := { h1.cr1 with peie := true, rxneie := true },
                 cr3 := { h1.cr3 with eie := true } }, [])
  else (HALStatus.busy, h, [])

/-- HAL_UART_Transmit_DMA: start a DMA-mode transmit.  No alignment check is
performed in the source.  Stores the buffer view, clears ErrorCode, enters
BusyTx, installs the Tx bridge callbacks on the Tx channel, starts the
channel, clears the TC flag and sets the DMAT request bit. -/
def HAL_UART_Transmit_DMA (h : UartHandle) (pData size : Nat) :
    HALStatus × UartHandle × List UartEvent :=
  if h.gState = HALUartState.ready then
    if pData = 0 ∨ size = 0 then (HALStatus.error, h, [])
    else
      let h1 := { h with pTxBuffPtr := pData, txXferSize := size, txXferCount := size,
                         errorCode := UartError.NONE, gState := HALUartState.busyTx }
      let h2 := { h1 with hdmatx := h1.hdmatx.map (fun (d : DMAHandle) =>
        { d with xferCpltCallback := some DmaCbId.uartDMATransmitCplt,
                 xferHalfCpltCallback := some DmaCbId.uartDMATxHalfCplt,
                 xferErrorCallback := some DmaCbId.uartDMAError,
                 xferAbortCallback := none }) }
      let h3 := { h2 with sr := { h2.sr with tc := false } }
      (HALStatus.ok, { h3 with cr3 := { h3.cr3 with dmat := true } },
       [UartEvent.dmaStartRequest false])
  else (HALStatus.busy, h, [])

/-- HAL_UART_Receive_DMA: start a DMA-mode receive.  Rejects a 9-bit
no-parity buffer at an odd address.  Stores the buffer view (the source
sets RxXferSize but not RxXferCount here), clears ErrorCode, enters BusyRx,
installs the Rx bridge callbacks on the Rx channel, starts the channel,
clears the stale overrun flag and enables PE, ERR and the DMAR request
bit. -/
def HAL_UART_Receive_DMA (h : UartHandle) (pData size : Nat) :
    HALStatus × UartHandle × List UartEvent :=
  if h.rxState = HALUartState.ready then
    if pData = 0 ∨ size = 0 then (HALStatus.error, h, [])
    else if h.init.wordLength = WordLength.nineBits ∧ h.init.parity = ParityCfg.parityNone ∧ pData % 2 ≠ 0 then
      (HALStatus.error, h, [])
    else
      let h1 := { h with pRxBuffPtr := pData, rxXferSize := size,
                         errorCode := UartError.NONE, rxState := HALUartState.busyRx }
      let h2 := { h1 with hdmarx := h1.hdmarx.map (fun (d : DMAHandle) =>
        { d with xferCpltCallback := some DmaCbId.uartDMAReceiveCplt,
                 xferHalfCpltCallback := some DmaCbId.uartDMARxHalfCplt,
                 xferErrorCallback := some DmaCbId.uartDMAError,
                 xferAbortCallback := none }) }
      let h3 := { h2 with sr := { h2.sr with ore := false } }
      (HALStatus.ok,
       { h3 with cr1 := { h3.cr1 with peie := true },
                 cr3 := { h3.cr3 with eie := true, dmar := true } },
       [UartEvent.dmaStartRequest true])
  else (HALStatus.busy, h, [])

/-- HAL_UART_Abort: blocking combined abort.  Disables all Tx and Rx
interrupt enables; for each direction with its DMA request bit set, clears
the request bit and blocks on the DMA abort (a DMA timeout makes the whole
call return Timeout with ErrorCode set to the DMA error by assignment);
then zeroes both counters, resets ErrorCode and restores both states to
Ready. -/
def HAL_UART_Abort (h0 : UartHandle) : HALStatus × UartHandle :=
  let h1 := { h0 with
    cr1 := { h0.cr1 with rxneie := false, peie := false, txeie := false, tcie := false },
    cr3 := { h0.cr3 with eie := false } }
  let txr : Option (HALStatus × UartHandle) × UartHandle :=
    if h1.cr3.dmat then
      let h2 := { h1 with cr3 := { h1.cr3 with dmat := false } }
      match h2.hdmatx with
      | some d =>
        let h3 := { h2 with hdmatx := some { d with xferAbortCallback := none } }
        if HAL_DMA_Abort d ≠ HALStatus.ok then
          if HAL_DMA_GetError d = HAL_DMA_ERROR_TIMEOUT then
            (some (HALStatus.timeout, { h3 with errorCode := UartError.DMAONLY }), h3)
          else (none, h3)
        else (none, h3)
      | none => (none, h2)
    else (none, h1)
  match txr.1 with
  | some r => r
  | none =>
    let h4 := txr.2
    let rxr : Option (HALStatus × UartHandle) × UartHandle :=
      if h4.cr3.dmar then
        let h5 := { h4 with cr3 := { h4.cr3 with dmar := false } }
        match h5.hdmarx with
        | some d =>
          let h6 := { h5 with hdmarx := some { d with xferAbortCallback := none } }
          if HAL_DMA_Abort d ≠ HALStatus.ok then
            if HAL_DMA_GetError d = HAL_DMA_ERROR_TIMEOUT then
              (some (HALStatus.timeout, { h6 with errorCode := UartError.DMAONLY }), h6)
            else (none, h6)
          else (none, h6)
        | none => (none, h5)
      else (none, h4)
    match rxr.1 with
    | some r => r
    | none =>
      (HALStatus.ok,
       { rxr.2 with txXferCount := 0, rxXferCount := 0, errorCode := UartError.NONE,
                    rxState := HALUartState.ready, gState := HALUartState.ready })

/-- HAL_UART_Abort_IT: asynchronous combined abort.  Disables all Tx and Rx
interrupt enables, arms the Tx and Rx abort bridge callbacks on the bound
channels whose DMA request bit is set, requests the asynchronous abort of
each such channel (a failed request un-arms that channel), and only when no
abort-complete callback execution remains pending zeroes the counters,
resets ErrorCode, restores both states to Ready and directly invokes the
user abort complete callback.  Always returns Ok. -/
def HAL_UART_Abort_IT (h0 : UartHandle) : HALStatus × UartHandle × List UartEvent :=
  let h1 := { h0 with
    cr1 := { h0.cr1 with rxneie := false, peie := false, txeie := false, tcie := false },
    cr3 := { h0.cr3 with eie := false } }
  let h2 :=
    match h1.hdmatx with
    | some d => { h1 with hdmatx := some { d with xferAbortCallback :=
        (if h1.cr3.dmat then some DmaCbId.uartDMATxAbortCallback else none) } }
    | none => h1
  let h3 :=
    match h2.hdmarx with
    | some d => { h2 with hdmarx := some { d with xferAbortCallback :=
        (if h2.cr3.dmar then some DmaCbId.uartDMARxAbortCallback else none) } }
    | none => h2
  let txr : UartHandle × Bool × List UartEvent :=
    if h3.cr3.dmat then
      let h4 := { h3 with cr3 := { h3.cr3 with dmat := false } }
      match h4.hdmatx with
      | some d =>
        if HAL_DMA_Abort_IT d ≠ HALStatus.ok then
          ({ h4 with hdmatx := some { d with xferAbortCallback := none } }, true,
           [UartEvent.dmaAbortRequest false])
        else (h4, false, [UartEvent.dmaAbortRequest false])
      | none => (h4, true, [])
    else (h3, true, [])
  let rxr : UartHandle × Bool × List UartEvent :=
    if txr.1.cr3.dmar then
      let h5 := { txr.1 with cr3 := { txr.1.cr3 with dmar := false } }
      match h5.hdmarx with
      | some d =>
        if HAL_DMA_Abort_IT d ≠ HALStatus.ok then
          ({ h5 with hdmarx := some { d with xferAbortCallback := none } }, true,
           [UartEvent.dmaAbortRequest true])
        else (h5, false, [UartEvent.dmaAbortRequest true])
      | none => (h5, txr.2.1, [])
    else (txr.1, txr.2.1, [])
  if rxr.2.1 then
    (HALStatus.ok,
     { rxr.1 with txXferCount := 0, rxXferCount := 0, errorCode := UartError.NONE,
                  gState := HALUartState.ready, rxState := HALUartState.ready },
     txr.2.2 ++ rxr.2.2 ++ [UartEvent.abortCpltCallback])
  else (HALStatus.ok, rxr.1, txr.2.2 ++ rxr.2.2)

/-- HAL_UART_Init on an optional handle (none models the NULL pointer).
MspInit is the user weak hook (no modelled handle effect); UART_SetConfig
and the CR2/CR3 protocol-bit writes only touch register bits outside the
modelled projection.  Enters Busy, then resets ErrorCode and sets both
states to Ready. -/
def HAL_UART_Init : Option UartHandle → HALStatus × Option UartHandle
  | none => (HALStatus.error, none)
  | some h =>
    let h1 := { h with gState := HALUartState.busy }
    (HALStatus.ok,
     some { h1 with errorCode := UartError.NONE, gState := HALUartState.ready,
                    rxState := HALUartState.ready })

/-- HAL_HalfDuplex_Init: as HAL_UART_Init, with the HDSEL protocol bit
(outside the modelled projection) set. -/
def HAL_HalfDuplex_Init : Option UartHandle → HALStatus × Option UartHandle
  | none => (HALStatus.error, none)
  | some h =>
    let h1 := { h with gState := HALUartState.busy }
    (HALStatus.ok,
     some { h1 with errorCode := UartError.NONE, gState := HALUartState.ready,
                    rxState := HALUartState.ready })

/-- HAL_LIN_Init: as HAL_UART_Init, but the source forces the configured
word length to 8 bits (and stop bits and oversampling, outside the modelled
projection) before applying the configuration, and sets the LINEN bit and
break detection length (outside the modelled projection). -/
def HAL_LIN_Init : Option UartHandle → Nat → HALStatus × Option UartHandle
  | none, _ => (HALStatus.error, none)
  | some h, _breakDetectLength =>
    let h1 := { h with gState := HALUartState.busy }
    let h2 := { h1 with init := { h1.init with wordLength := WordLength.eightBits } }
    (HALStatus.ok,
     some { h2 with errorCode := UartError.NONE, gState := HALUartState.ready,
                    rxState := HALUartState.ready })

/-- HAL_MultiProcessor_Init: as HAL_UART_Init, with the node address and
wake-up method written to register bits outside the modelled projection. -/
def HAL_MultiProcessor_Init : Option UartHandle → Nat → Nat → HALStatus × Option UartHandle
  | none, _, _ => (HALStatus.error, none)
  | some h, _address, _wakeUpMethod =>
    let h1 := { h with gState := HALUartState.busy }
    (HALStatus.ok,
     some { h1 with errorCode := UartError.NONE, gState := HALUartState.ready,
                    rxState := HALUartState.ready })

/-- A concrete DMA channel value used by witness instantiations. -/
def dmaBase : DMAHandle :=
  { xferCpltCallback := none, xferHalfCpltCallback := none, xferErrorCallback := none,
    xferAbortCallback := none, abortItOk := true, abortOk := true, dmaError := 0 }

/-- CR1 with every modelled enable clear. -/
def cr1Base : CR1Reg :=
  { rxneie := false, peie := false, txeie := false, tcie := false, idleie := false }

/-- CR3 with every modelled bit clear. -/
def cr3Base : CR3Reg :=
  { eie := false, dmar := false, dmat := false }

/-- SR with every modelled flag clear. -/
def srBase : SRReg :=
  { pe := false, fe := false, ne := false, ore := false, rxne := false,
    idle := false, txe := false, tc := false }

/-- A concrete idle 8-bit handle used by witness instantiations. -/
def hBase : UartHandle :=
  { cr1 := cr1Base, cr3 := cr3Base, sr := srBase,
    init := { wordLength := WordLength.eightBits, parity := ParityCfg.parityNone },
    gState := HALUartState.ready, rxState := HALUartState.ready,
    errorCode := UartError.NONE,
    txXferSize := 0, txXferCount := 0, rxXferSize := 0, rxXferCount := 0,
    pTxBuffPtr := 0, pRxBuffPtr := 0, hdmatx := none, hdmarx := none }

/-- A concrete polling environment whose flag never sets and whose clock has
advanced 1000 ticks past the start, used by witness instantiations. -/
def envStuck : HwEnv :=
  { srAt := fun _ => srBase, tickAt := fun _ => 1000, startTick := 0 }

/-- A handle busy in both directions, used by witness instantiations. -/
def hBusyBoth : UartHandle :=
  { hBase with gState := HALUartState.busyTx, rxState := HALUartState.busyRx }

/-- A ready 9-bit no-parity handle with both DMA channels bound, used by
witness instantiations. -/
def hNineBit : UartHandle :=
  { hBase with init := { wordLength := WordLength.nineBits, parity := ParityCfg.parityNone },
               hdmatx := some dmaBase, hdmarx := some dmaBase }

/-- A ready handle with a sticky overrun error code and one receive
interrupt enable still set, both DMA request bits clear. -/
def hStickyOre : UartHandle :=
  { hBase with errorCode := { UartError.NONE with ore := true },
               cr1 := { cr1Base with rxneie := true } }

/-- Claim C7: each initialization variant (HAL_UART_Init,
HAL_HalfDuplex_Init, HAL_LIN_Init, HAL_MultiProcessor_Init) returns Ok on a
non-null handle and leaves gState Ready, RxState Ready and errorCode None;
on a null handle each variant returns an error with no effect. -/
theorem c7_init_states (h : UartHandle) (bdl addr wake : Nat) :
    (∃ h1, HAL_UART_Init (some h) = (HALStatus.ok, some h1) ∧
       h1.gState = HALUartState.ready ∧ h1.rxState = HALUartState.ready ∧
       h1.errorCode = UartError.NONE) ∧
    (∃ h1, HAL_HalfDuplex_Init (some h) = (HALStatus.ok, some h1) ∧
       h1.gState = HALUartState.ready ∧ h1.rxState = HALUartState.ready ∧
       h1.errorCode = UartError.NONE) ∧
    (∃ h1, HAL_LIN_Init (some h) bdl = (HALStatus.ok, some h1) ∧
       h1.gState = HALUartState.ready ∧ h1.rxState = HALUartState.ready ∧
       h1.errorCode = UartError.NONE) ∧
    (∃ h1, HAL_MultiProcessor_Init (some h) addr wake = (HALStatus.ok, some h1) ∧
       h1.gState = HALUartState.ready ∧ h1.rxState = HALUartState.ready ∧
       h1.errorCode = UartError.NONE) ∧
    HAL_UART_Init none = (HALStatus.error, none) ∧
    HAL_HalfDuplex_Init none = (HALStatus.error, none) ∧
    HAL_LIN_Init none bdl = (HALStatus.error, none) ∧
    HAL_MultiProcessor_Init none addr wake = (HALStatus.error, none) :=
  ⟨⟨_, rfl, rfl, rfl, rfl⟩, ⟨_, rfl, rfl, rfl, rfl⟩, ⟨_, rfl, rfl, rfl, rfl⟩,
   ⟨_, rfl, rfl, rfl, rfl⟩, rfl, rfl, rfl, rfl⟩

/-- Claim C4: every transfer-start operation invoked while the
corresponding direction state is not Ready returns Busy, leaves the handle
unchanged and invokes no callback. -/
theorem c4_busy_rejection (h : UartHandle) (pData size timeoutMs : Nat)
    (env : HwEnv) (fuel : Nat) :
    (h.gState ≠ HALUartState.ready →
      HAL_UART_Transmit h pData size timeoutMs env fuel = some (HALStatus.busy, h) ∧
      HAL_UART_Transmit_IT h pData size = (HALStatus.busy, h, []) ∧
      HAL_UART_Transmit_DMA h pData size = (HALStatus.busy, h, [])) ∧
    (h.rxState ≠ HALUartState.ready →
      HAL_UART_Receive h pData size timeoutMs env fuel = some (HALStatus.busy, h) ∧
      HAL_UART_Receive_IT h pData size = (HALStatus.busy, h, []) ∧
      HAL_UART_Receive_DMA h pData size = (HALStatus.busy, h, [])) := by
  constructor
  · intro hg
    refine ⟨?_, ?_, ?_⟩ <;>
      simp [HAL_UART_Transmit, HAL_UART_Transmit_IT, HAL_UART_Transmit_DMA, hg]
  · intro hr
    refine ⟨?_, ?_, ?_⟩ <;>
      simp [HAL_UART_Receive, HAL_UART_Receive_IT, HAL_UART_Receive_DMA, hr]

/-- Witness for claim C4 at a concrete busy handle. -/
theorem c4_busy_rejection_witness :
    HAL_UART_Transmit_IT hBusyBoth 100 1 = (HALStatus.busy, hBusyBoth, []) ∧
    HAL_UART_Receive_DMA hBusyBoth 100 1 = (HALStatus.busy, hBusyBoth, []) :=
  ⟨((c4_busy_rejection hBusyBoth 100 1 0 envStuck 1).1 (by decide)).2.1,
   ((c4_busy_rejection hBusyBoth 100 1 0 envStuck 1).2 (by decide)).2.2⟩

/-- Claim C8: every transfer-start operation invoked from Ready with a null
data pointer or a zero length returns an immediate error, leaves the handle
unchanged and invokes no callback. -/
theorem c8_invalid_args (h : UartHandle) (pData size timeoutMs : Nat)
    (env : HwEnv) (fuel : Nat) (hinv : pData = 0 ∨ size = 0) :
    (h.gState = HALUartState.ready →
      HAL_UART_Transmit h pData size timeoutMs env fuel = some (HALStatus.error, h) ∧
      HAL_UART_Transmit_IT h pData size = (HALStatus.error, h, []) ∧
      HAL_UART_Transmit_DMA h pData size = (HALStatus.error, h, [])) ∧
    (h.rxState = HALUartState.ready →
      HAL_UART_Receive h pData size timeoutMs env fuel = some (HALStatus.error, h) ∧
      HAL_UART_Receive_IT h pData size = (HALStatus.error, h, []) ∧
      HAL_UART_Receive_DMA h pData size = (HALStatus.error, h, [])) := by
  constructor
  · intro hg
    refine ⟨?_, ?_, ?_⟩ <;>
      simp [HAL_UART_Transmit, HAL_UART_Transmit_IT, HAL_UART_Transmit_DMA, hg, hinv]
  · intro hr
    refine ⟨?_, ?_, ?_⟩ <;>
      simp [HAL_UART_Receive, HAL_UART_Receive_IT, HAL_UART_Receive_DMA, hr, hinv]

/-- Witness for claim C8 at a concrete ready handle with a null pointer. -/
theorem c8_invalid_args_witness :
    HAL_UART_Transmit_IT hBase 0 4 = (HALStatus.error, hBase, []) ∧
    HAL_UART_Receive_IT hBase 0 4 = (HALStatus.error, hBase, []) :=
  ⟨((c8_invalid_args hBase 0 4 0 envStuck 1 (Or.inl rfl)).1 rfl).2.1,
   ((c8_invalid_args hBase 0 4 0 envStuck 1 (Or.inl rfl)).2 rfl).2.1⟩

/-- Claim C9: with a 9-bit word length and parity disabled, the blocking
Transmit, the blocking Receive and the DMA Receive reject an odd buffer
address with an immediate error and no state change, while the interrupt
Transmit, the interrupt Receive and the DMA Transmit perform no alignment
check, accept the same pointer and start the transfer; the interrupt
transmit path then steps the buffer pointer in 16-bit units. -/
theorem c9_alignment_asymmetry (h : UartHandle) (pData size timeoutMs : Nat)
    (env : HwEnv) (fuel : Nat)
    (h9 : h.init.wordLength = WordLength.nineBits)
    (hpar : h.init.parity = ParityCfg.parityNone)
    (hodd : pData % 2 = 1)
    (hg : h.gState = HALUartState.ready) (hr : h.rxState = HALUartState.ready)
    (hp : pData ≠ 0) (hs : size ≠ 0) :
    HAL_UART_Transmit h pData size timeoutMs env fuel = some (HALStatus.error, h) ∧
    HAL_UART_Receive h pData size timeoutMs env fuel = some (HALStatus.error, h) ∧
    HAL_UART_Receive_DMA h pData size = (HALStatus.error, h, []) ∧
    (HAL_UART_Transmit_IT h pData size).1 = HALStatus.ok ∧
    (HAL_UART_Transmit_IT h pData size).2.1.gState = HALUartState.busyTx ∧
    (HAL_UART_Receive_IT h pData size).1 = HALStatus.ok ∧
    (HAL_UART_Receive_IT h pData size).2.1.rxState = HALUartState.busyRx ∧
    (HAL_UART_Transmit_DMA h pData size).1 = HALStatus.ok ∧
    (HAL_UART_Transmit_DMA h pData size).2.1.gState = HALUartState.busyTx ∧
    (∀ h2 : UartHandle, h2.gState = HALUartState.busyTx →
      h2.init.wordLength = WordLength.nineBits → h2.init.parity = ParityCfg.parityNone →
      (UART_Transmit_IT h2).1.pTxBuffPtr = h2.pTxBuffPtr + 2) := by
  refine ⟨?_, ?_, ?_, ?_, ?_, ?_, ?_, ?_, ?_, ?_⟩
  · simp [HAL_UART_Transmit, hg, hp, hs, h9, hpar, hodd]
  · simp [HAL_UART_Receive, hr, hp, hs, h9, hpar, hodd]
  · simp [HAL_UART_Receive_DMA, hr, hp, hs, h9, hpar, hodd]
  · simp [HAL_UART_Transmit_IT, hg, hp, hs]
  · simp [HAL_UART_Transmit_IT, hg, hp, hs]
  · simp [HAL_UART_Receive_IT, hr, hp, hs]
  · simp [HAL_UART_Receive_IT, hr, hp, hs]
  · simp [HAL_UART_Transmit_DMA, hg, hp, hs]
  · simp [HAL_UART_Transmit_DMA, hg, hp, hs]
  · intro h2 hg2 h92 hpar2
    by_cases hc : dec16 h2.txXferCount = 0 <;>
      simp [UART_Transmit_IT, hg2, h92, hpar2, hc]

/-- Witness for claim C9 at a concrete 9-bit no-parity handle and the odd
address 101. -/
theorem c9_alignment_asymmetry_witness :
    HAL_UART_Receive_DMA hNineBit 101 4 = (HALStatus.error, hNineBit, []) ∧
    (HAL_UART_Transmit_IT hNineBit 101 4).1 = HALStatus.ok :=
  ⟨(c9_alignment_asymmetry hNineBit 101 4 0 envStuck 1 rfl rfl rfl rfl rfl
      (by decide) (by decide)).2.2.1,
   (c9_alignment_asymmetry hNineBit 101 4 0 envStuck 1 rfl rfl rfl rfl rfl
      (by decide) (by decide)).2.2.2.1⟩

/-- Claim C6 counterexample: a handle that is Ready in both directions with
both DMA request bits clear but with a sticky overrun error code and an
enabled receive interrupt; the blocking Abort returns Ok yet changes
errorCode (resetting it to None) and changes CR1, contradicting the claim
that nothing beyond the transfer counters is mutated. -/
theorem c6_abort_counterexample :
    hStickyOre.gState = HALUartState.ready ∧
    hStickyOre.rxState = HALUartState.ready ∧
    hStickyOre.cr3.dmat = false ∧ hStickyOre.cr3.dmar = false ∧
    (HAL_UART_Abort hStickyOre).1 = HALStatus.ok ∧
    (HAL_UART_Abort hStickyOre).2.errorCode ≠ hStickyOre.errorCode ∧
    (HAL_UART_Abort hStickyOre).2.cr1 ≠ hStickyOre.cr1 := by
  decide

/-- Claim C6 as amended: the blocking Abort on a handle that is Ready in
both directions with both DMA request bits clear returns Ok, zeroes both
transfer counters, clears the Tx and Rx interrupt enables, resets errorCode
to None, and changes nothing else; in particular gState and RxState keep
their Ready values. -/
theorem c6_abort_amended (h : UartHandle)
    (hg : h.gState = HALUartState.ready) (hr : h.rxState = HALUartState.ready)
    (ht : h.cr3.dmat = false) (hd : h.cr3.dmar = false) :
    HAL_UART_Abort h = (HALStatus.ok,
      { h with
        cr1 := { h.cr1 with rxneie := false, peie := false, txeie := false, tcie := false },
        cr3 := { h.cr3 with eie := false },
        txXferCount := 0, rxXferCount := 0, errorCode := UartError.NONE }) := by
  obtain ⟨c1, c3, sr, ini, g, r, ec, ts, tcn, rs, rcn, pt, pr, hx, hy⟩ := h
  obtain ⟨eie, dmar, dmat⟩ := c3
  simp only at hg hr ht hd
  subst hg hr ht hd
  simp [HAL_UART_Abort]

/-- Witness for the amended claim C6 at the concrete sticky-error handle. -/
theorem c6_abort_amended_witness :
    HAL_UART_Abort hStickyOre = (HALStatus.ok,
      { hStickyOre with
        cr1 := { hStickyOre.cr1 with rxneie := false, peie := false, txeie := false, tcie := false },
        cr3 := { hStickyOre.cr3 with eie := false },
        txXferCount := 0, rxXferCount := 0, errorCode := UartError.NONE }) :=
  c6_abort_amended hStickyOre rfl rfl rfl rfl

/-- A handle with both DMA channels bound and both DMA requests active,
used by witness instantiations. -/
def hDmaBoth : UartHandle :=
  { hBase with cr3 := { cr3Base with dmar := true, dmat := true },
               gState := HALUartState.busyTx, rxState := HALUartState.busyRx,
               txXferCount := 5, rxXferCount := 7,
               hdmatx := some dmaBase, hdmarx := some dmaBase }

/-- Claim C1: with both DMA channels bound, both DMA requests active and
both asynchronous channel aborts accepted, HAL_UART_Abort_IT returns Ok and
its own trace holds no abort complete callback; delivering one DMA abort
completion alone (either one) produces no user callback; delivering the
second, in either order, invokes the user abort complete callback exactly
once, and at that joint invocation gState and RxState are Ready, errorCode
is None and both transfer counters are zero. -/
theorem c1_abort_join (h : UartHandle) (dtx drx : DMAHandle)
    (htx : h.hdmatx = some dtx) (hrx : h.hdmarx = some drx)
    (hdmat : h.cr3.dmat = true) (hdmar : h.cr3.dmar = true)
    (hta : dtx.abortItOk = true) (hra : drx.abortItOk = true) :
    (HAL_UART_Abort_IT h).1 = HALStatus.ok ∧
    (HAL_UART_Abort_IT h).2.2
      = [UartEvent.dmaAbortRequest false, UartEvent.dmaAbortRequest true] ∧
    (dmaTxAbortComplete (HAL_UART_Abort_IT h).2.1).2 = [] ∧
    (dmaRxAbortComplete (HAL_UART_Abort_IT h).2.1).2 = [] ∧
    (dmaRxAbortComplete (dmaTxAbortComplete (HAL_UART_Abort_IT h).2.1).1).2
      = [UartEvent.abortCpltCallback] ∧
    (dmaTxAbortComplete (dmaRxAbortComplete (HAL_UART_Abort_IT h).2.1).1).2
      = [UartEvent.abortCpltCallback] ∧
    ((dmaRxAbortComplete (dmaTxAbortComplete (HAL_UART_Abort_IT h).2.1).1).1.gState
        = HALUartState.ready ∧
     (dmaRxAbortComplete (dmaTxAbortComplete (HAL_UART_Abort_IT h).2.1).1).1.rxState
        = HALUartState.ready ∧
     (dmaRxAbortComplete (dmaTxAbortComplete (HAL_UART_Abort_IT h).2.1).1).1.errorCode
        = UartError.NONE ∧
     (dmaRxAbortComplete (dmaTxAbortComplete (HAL_UART_Abort_IT h).2.1).1).1.txXferCount = 0 ∧
     (dmaRxAbortComplete (dmaTxAbortComplete (HAL_UART_Abort_IT h).2.1).1).1.rxXferCount = 0) ∧
    ((dmaTxAbortComplete (dmaRxAbortComplete (HAL_UART_Abort_IT h).2.1).1).1.gState
        = HALUartState.ready ∧
     (dmaTxAbortComplete (dmaRxAbortComplete (HAL_UART_Abort_IT h).2.1).1).1.rxState
        = HALUartState.ready ∧
     (dmaTxAbortComplete (dmaRxAbortComplete (HAL_UART_Abort_IT h).2.1).1).1.errorCode
        = UartError.NONE ∧
     (dmaTxAbortComplete (dmaRxAbortComplete (HAL_UART_Abort_IT h).2.1).1).1.txXferCount = 0 ∧
     (dmaTxAbortComplete (dmaRxAbortComplete (HAL_UART_Abort_IT h).2.1).1).1.rxXferCount = 0) := by
  obtain ⟨c1, c3, sr, ini, g, r, ec, ts, tcn, rs, rcn, pt, pr, hx, hy⟩ := h
  obtain ⟨eie, dmar, dmat⟩ := c3
  obtain ⟨t1, t2, t3, t4, t5, t6, t7⟩ := dtx
  obtain ⟨r1, r2, r3, r4, r5, r6, r7⟩ := drx
  simp only at htx hrx hdmat hdmar hta hra
  subst htx hrx hdmat hdmar hta hra
  simp [HAL_UART_Abort_IT, HAL_DMA_Abort_IT, dmaTxAbortComplete, dmaRxAbortComplete,
        runAbortCb, UART_DMATxAbortCallback, UART_DMARxAbortCallback, UartError.NONE]

/-- Witness for claim C1 at a concrete fully DMA-active handle. -/
theorem c1_abort_join_witness :
    (HAL_UART_Abort_IT hDmaBoth).1 = HALStatus.ok ∧
    (dmaRxAbortComplete (dmaTxAbortComplete (HAL_UART_Abort_IT hDmaBoth).2.1).1).2
      = [UartEvent.abortCpltCallback] :=
  ⟨(c1_abort_join hDmaBoth dmaBase dmaBase rfl rfl rfl rfl rfl rfl).1,
   (c1_abort_join hDmaBoth dmaBase dmaBase rfl rfl rfl rfl rfl rfl).2.2.2.2.1⟩

/-- A frame error arriving together with the final pending data unit of an
interrupt-mode reception. -/
def hFeLast : UartHandle :=
  { hBase with sr := { srBase with fe := true, rxne := true },
               cr1 := { cr1Base with rxneie := true, peie := true },
               cr3 := { cr3Base with eie := true },
               rxState := HALUartState.busyRx, rxXferCount := 1 }

/-- A frame error in the middle of an interrupt-mode reception, with no
data unit pending. -/
def hFeMid : UartHandle :=
  { hBase with sr := { srBase with fe := true },
               cr1 := { cr1Base with rxneie := true, peie := true },
               cr3 := { cr3Base with eie := true },
               rxState := HALUartState.busyRx, rxXferCount := 3 }

/-- Claim C3 counterexample: a Frame error without Overrun and without a
DMA receive request, arriving together with the final pending data unit of
an interrupt-mode reception; the drain completes the reception, so RxState
does not remain BusyRx and the receive interrupt enables do not remain
set, contradicting the claim as stated. -/
theorem c3_nonblocking_error_counterexample :
    hFeLast.sr.fe = true ∧ hFeLast.cr3.eie = true ∧ hFeLast.sr.ore = false ∧
    hFeLast.errorCode.ore = false ∧ hFeLast.cr3.dmar = false ∧
    hFeLast.rxState = HALUartState.busyRx ∧
    (HAL_UART_IRQHandler hFeLast).1.rxState ≠ HALUartState.busyRx ∧
    (HAL_UART_IRQHandler hFeLast).1.cr1.rxneie = false := by
  decide

/-- Claim C3 as amended: for a Parity, Noise or Frame error detected
without Overrun and without an active DMA receive request during an
interrupt-mode reception, provided the reception does not complete during
the drain of pending data (no data unit pending, or more than one unit
still expected), the user error callback is invoked, immediately afterwards
errorCode is cleared to None, and the receive transfer continues: RxState
remains BusyRx and the receive interrupt enables remain set. -/
theorem c3_nonblocking_error_amended (h : UartHandle)
    (hrxs : h.rxState = HALUartState.busyRx)
    (hrxne : h.cr1.rxneie = true) (hpeie : h.cr1.peie = true) (heie : h.cr3.eie = true)
    (hdmar : h.cr3.dmar = false)
    (hore : h.sr.ore = false) (hecore : h.errorCode.ore = false)
    (herr : h.sr.pe = true ∨ h.sr.ne = true ∨ h.sr.fe = true)
    (hcont : h.sr.rxne = false ∨ 1 < h.rxXferCount)
    (hc16 : h.rxXferCount < 65536) :
    (HAL_UART_IRQHandler h).2 = [UartEvent.errorCallback] ∧
    (HAL_UART_IRQHandler h).1.errorCode = UartError.NONE ∧
    (HAL_UART_IRQHandler h).1.rxState = HALUartState.busyRx ∧
    (HAL_UART_IRQHandler h).1.cr1.rxneie = true ∧
    (HAL_UART_IRQHandler h).1.cr1.peie = true ∧
    (HAL_UART_IRQHandler h).1.cr3.eie = true := by
  obtain ⟨c1, c3, sr, ini, g, r, ec, ts, tcn, rs, rcn, pt, pr, hx0, hy0⟩ := h
  obtain ⟨rxneie, peie, txeie, tcie, idleie⟩ := c1
  obtain ⟨eie, dmar, dmat⟩ := c3
  obtain ⟨spe, sfe, sne, sore, srxne, sidle, stxe, stc⟩ := sr
  obtain ⟨epe, ene, efe, eore, edma⟩ := ec
  simp only at hrxs hrxne hpeie heie hdmar hore hecore herr hcont hc16
  subst hrxs hrxne hpeie heie hdmar hore hecore
  rcases hcont with hcx | hcx
  · subst hcx
    rcases herr with he | he | he <;> subst he <;>
      simp [HAL_UART_IRQHandler, uartIrqErrorCode, uartIrqDrain, UART_Receive_IT,
            UartError.NONE]
  · have hdz : dec16 rcn ≠ 0 := by unfold dec16; omega
    cases srxne <;>
      rcases herr with he | he | he <;> subst he <;>
        simp [HAL_UART_IRQHandler, uartIrqErrorCode, uartIrqDrain, UART_Receive_IT,
              UartError.NONE, hdz]

/-- Witness for the amended claim C3 at a concrete mid-transfer frame
error. -/
theorem c3_nonblocking_error_witness :
    (HAL_UART_IRQHandler hFeMid).2 = [UartEvent.errorCallback] ∧
    (HAL_UART_IRQHandler hFeMid).1.errorCode = UartError.NONE ∧
    (HAL_UART_IRQHandler hFeMid).1.rxState = HALUartState.busyRx :=
  ⟨(c3_nonblocking_error_amended hFeMid rfl rfl rfl rfl rfl rfl rfl
      (Or.inr (Or.inr rfl)) (Or.inl rfl) (by decide)).1,
   (c3_nonblocking_error_amended hFeMid rfl rfl rfl rfl rfl rfl rfl
      (Or.inr (Or.inr rfl)) (Or.inl rfl) (by decide)).2.1,
   (c3_nonblocking_error_amended hFeMid rfl rfl rfl rfl rfl rfl rfl
      (Or.inr (Or.inr rfl)) (Or.inl rfl) (by decide)).2.2.1⟩

/-- The interrupt-mode receive step never touches the DMA receive request bit. -/
theorem UART_Receive_IT_cr3_dmar (h : UartHandle) :
    (UART_Receive_IT h).1.cr3.dmar = h.cr3.dmar := by
  unfold UART_Receive_IT
  by_cases h1 : h.rxState = HALUartState.busyRx <;>
    by_cases h2 : dec16 h.rxXferCount = 0 <;> simp [h1, h2]

/-- The interrupt-mode receive step never touches the Rx DMA channel binding. -/
theorem UART_Receive_IT_hdmarx (h : UartHandle) :
    (UART_Receive_IT h).1.hdmarx = h.hdmarx := by
  unfold UART_Receive_IT
  by_cases h1 : h.rxState = HALUartState.busyRx <;>
    by_cases h2 : dec16 h.rxXferCount = 0 <;> simp [h1, h2]

/-- The interrupt-mode receive step never invokes the user error callback. -/
theorem UART_Receive_IT_no_errorCallback (h : UartHandle) :
    UartEvent.errorCallback ∉ (UART_Receive_IT h).2 := by
  unfold UART_Receive_IT
  by_cases h1 : h.rxState = HALUartState.busyRx <;>
    by_cases h2 : dec16 h.rxXferCount = 0 <;> simp [h1, h2]

/-- The error-branch drain never touches the DMA receive request bit. -/
theorem uartIrqDrain_cr3_dmar (h : UartHandle) :
    (uartIrqDrain h).1.cr3.dmar = h.cr3.dmar := by
  unfold uartIrqDrain
  by_cases hc : h.sr.rxne = true ∧ h.cr1.rxneie = true
  · simp [hc, UART_Receive_IT_cr3_dmar]
  · simp [hc]

/-- The error-branch drain never touches the Rx DMA channel binding. -/
theorem uartIrqDrain_hdmarx (h : UartHandle) :
    (uartIrqDrain h).1.hdmarx = h.hdmarx := by
  unfold uartIrqDrain
  by_cases hc : h.sr.rxne = true ∧ h.cr1.rxneie = true
  · simp [hc, UART_Receive_IT_hdmarx]
  · simp [hc]

/-- The error-branch drain never invokes the user error callback. -/
theorem uartIrqDrain_no_errorCallback (h : UartHandle) :
    UartEvent.errorCallback ∉ (uartIrqDrain h).2 := by
  unfold uartIrqDrain
  by_cases hc : h.sr.rxne = true ∧ h.cr1.rxneie = true
  · simp [hc, UART_Receive_IT_no_errorCallback]
  · simp [hc]

/-- An overrun error during an interrupt-mode reception (DMA receive
request bit clear) on a handle that nevertheless has an Rx DMA channel
bound. -/
def hOreIt : UartHandle :=
  { hBase with sr := { srBase with ore := true },
               cr1 := { cr1Base with rxneie := true, peie := true },
               cr3 := { cr3Base with eie := true },
               rxState := HALUartState.busyRx, rxXferCount := 3,
               hdmarx := some dmaBase }

/-- Claim C2 counterexample: an Overrun with its interrupt source enabled
during an interrupt-mode reception, on a handle whose Rx DMA channel is
bound but whose DMA receive request bit is clear; the handler invokes the
user error callback directly and requests no asynchronous abort of the
bound channel (its abort callback slot stays empty), contradicting the
claim that a bound Rx DMA channel is always aborted asynchronously. -/
theorem c2_blocking_error_counterexample :
    hOreIt.sr.ore = true ∧ hOreIt.cr3.eie = true ∧
    (uartIrqErrorCode hOreIt).ore = true ∧
    hOreIt.hdmarx = some dmaBase ∧
    (HAL_UART_IRQHandler hOreIt).2 = [UartEvent.errorCallback] ∧
    (HAL_UART_IRQHandler hOreIt).1.hdmarx = some dmaBase := by
  decide

/-- Claim C2 as amended: when a line-error flag is set with its interrupt
source enabled and the accumulated errorCode includes Overrun or the DMA
receive request bit is set, the error is blocking: any already-available
data unit is drained first, the receive transfer is ended (RXNE, PE and
error interrupt enables cleared, RxState forced to Ready), and then, when
the DMA receive request bit was set and an Rx DMA channel is bound whose
asynchronous abort is accepted, the abort is requested with
UART_DMAAbortOnError as callback and the user error callback fires only
after the DMA teardown; otherwise (DMA request bit clear, even with a
bound channel, or no channel bound) the user error callback is invoked
directly. -/
theorem c2_blocking_error_amended (h : UartHandle)
    (htrig : (h.sr.pe = true ∧ h.cr1.peie = true) ∨
             ((h.sr.ne = true ∨ h.sr.fe = true ∨ h.sr.ore = true) ∧ h.cr3.eie = true))
    (hblk : (uartIrqErrorCode h).ore = true ∨ h.cr3.dmar = true) :
    ((HAL_UART_IRQHandler h).1.rxState = HALUartState.ready ∧
     (HAL_UART_IRQHandler h).1.cr1.rxneie = false ∧
     (HAL_UART_IRQHandler h).1.cr1.peie = false ∧
     (HAL_UART_IRQHandler h).1.cr3.eie = false) ∧
    (h.cr3.dmar = true → ∀ d : DMAHandle, h.hdmarx = some d → d.abortItOk = true →
      (HAL_UART_IRQHandler h).2 = (uartIrqDrain h).2 ++ [UartEvent.dmaAbortRequest true] ∧
      (HAL_UART_IRQHandler h).1.hdmarx
        = some { d with xferAbortCallback := some DmaCbId.uartDMAAbortOnError } ∧
      (HAL_UART_IRQHandler h).1.cr3.dmar = false ∧
      UartEvent.errorCallback ∉ (HAL_UART_IRQHandler h).2 ∧
      (dmaRxAbortComplete (HAL_UART_IRQHandler h).1).2 = [UartEvent.errorCallback]) ∧
    (h.cr3.dmar = true → h.hdmarx = none →
      (HAL_UART_IRQHandler h).2 = (uartIrqDrain h).2 ++ [UartEvent.errorCallback]) ∧
    (h.cr3.dmar = false →
      (HAL_UART_IRQHandler h).2 = (uartIrqDrain h).2 ++ [UartEvent.errorCallback]) := by
  have hef : (h.sr.pe || h.sr.fe || h.sr.ore || h.sr.ne) = true := by
    rcases htrig with ⟨hp, _⟩ | ⟨hp, _⟩
    · simp [hp]
    · rcases hp with hp | hp | hp <;> simp [hp]
  have hen : (h.cr3.eie = true ∨ h.cr1.rxneie = true ∨ h.cr1.peie = true) := by
    rcases htrig with ⟨_, hp⟩ | ⟨_, hp⟩
    · exact Or.inr (Or.inr hp)
    · exact Or.inl hp
  have hne : uartIrqErrorCode h ≠ UartError.NONE := by
    rcases htrig with ⟨hp, hq⟩ | ⟨hp, hq⟩
    · simp [uartIrqErrorCode, UartError.NONE, hp, hq]
    · rcases hp with hp | hp | hp <;> simp [uartIrqErrorCode, UartError.NONE, hp, hq]
  refine ⟨?_, ?_, ?_, ?_⟩
  · by_cases hd : h.cr3.dmar = true
    · rcases hx : h.hdmarx with _ | d
      · simp [HAL_UART_IRQHandler, UART_EndRxTransfer, hef, hen, hne,
              uartIrqDrain_cr3_dmar, uartIrqDrain_hdmarx, hd, hx]
      · by_cases hab : d.abortItOk = true <;>
          simp [HAL_UART_IRQHandler, HAL_DMA_Abort_IT, UART_EndRxTransfer,
                UART_DMAAbortOnError, hef, hen, hne,
                uartIrqDrain_cr3_dmar, uartIrqDrain_hdmarx, hd, hx, hab]
    · simp only [Bool.not_eq_true] at hd
      simp [HAL_UART_IRQHandler, UART_EndRxTransfer, hef, hen, hne,
            uartIrqDrain_cr3_dmar, hd, hblk.resolve_right (by simp [hd])]
  · intro hd d hx hab
    simp [HAL_UART_IRQHandler, HAL_DMA_Abort_IT, UART_EndRxTransfer,
          UART_DMAAbortOnError, dmaRxAbortComplete, runAbortCb, hef, hen, hne,
          uartIrqDrain_cr3_dmar, uartIrqDrain_hdmarx, uartIrqDrain_no_errorCallback h,
          hd, hx, hab]
  · intro hd hx
    simp [HAL_UART_IRQHandler, UART_EndRxTransfer, hef, hen, hne,
          uartIrqDrain_cr3_dmar, uartIrqDrain_hdmarx, hd, hx]
  · intro hd
    simp [HAL_UART_IRQHandler, UART_EndRxTransfer, hef, hen, hne,
          uartIrqDrain_cr3_dmar, hd, hblk.resolve_right (by simp [hd])]

/-- A frame error during an active DMA receive with the Rx channel bound. -/
def hFeDma : UartHandle :=
  { hBase with sr := { srBase with fe := true },
               cr1 := { cr1Base with rxneie := true, peie := true },
               cr3 := { cr3Base with eie := true, dmar := true },
               rxState := HALUartState.busyRx, rxXferCount := 3,
               hdmarx := some dmaBase }

/-- Witness for the amended claim C2 at a concrete frame error during an
active DMA receive. -/
theorem c2_blocking_error_witness :
    (HAL_UART_IRQHandler hFeDma).1.rxState = HALUartState.ready ∧
    (HAL_UART_IRQHandler hFeDma).2
      = (uartIrqDrain hFeDma).2 ++ [UartEvent.dmaAbortRequest true] ∧
    (dmaRxAbortComplete (HAL_UART_IRQHandler hFeDma).1).2 = [UartEvent.errorCallback] :=
  ⟨(c2_blocking_error_amended hFeDma (Or.inr ⟨Or.inr (Or.inl rfl), rfl⟩) (Or.inr rfl)).1.1,
   ((c2_blocking_error_amended hFeDma (Or.inr ⟨Or.inr (Or.inl rfl), rfl⟩)
       (Or.inr rfl)).2.1 rfl dmaBase rfl rfl).1,
   ((c2_blocking_error_amended hFeDma (Or.inr ⟨Or.inr (Or.inl rfl), rfl⟩)
       (Or.inr rfl)).2.1 rfl dmaBase rfl rfl).2.2.2.2⟩

/-- On any terminating outcome, the timeout helper either returns Ok with
the handle untouched, or Timeout with the TXE, RXNE, PE and EIE interrupt
enables cleared and both states forced to Ready. -/
theorem waitOnFlag_cases (flagOf : SRReg → Bool) (status : Bool)
    (tickstart timeoutMs : Nat) (env : HwEnv) :
    ∀ fuel n h st h1 n1,
      UART_WaitOnFlagUntilTimeout flagOf status tickstart timeoutMs env fuel n h
        = some (st, h1, n1) →
      (st = HALStatus.ok ∧ h1 = h) ∨
      (st = HALStatus.timeout ∧
        h1 = { h with cr1 := { h.cr1 with rxneie := false, peie := false, txeie := false },
                      cr3 := { h.cr3 with eie := false },
                      gState := HALUartState.ready, rxState := HALUartState.ready }) := by
  intro fuel
  induction fuel with
  | zero =>
    intro n h st h1 n1 hres
    exact absurd hres (by simp [UART_WaitOnFlagUntilTimeout])
  | succ fuel ih =>
    intro n h st h1 n1 hres
    rw [UART_WaitOnFlagUntilTimeout] at hres
    split at hres
    · split at hres
      · simp only [Option.some.injEq, Prod.mk.injEq] at hres
        exact Or.inr ⟨hres.1.symm, hres.2.1.symm⟩
      · exact ih _ _ _ _ _ hres
    · simp only [Option.some.injEq, Prod.mk.injEq] at hres
      exact Or.inl ⟨hres.1.symm, hres.2.1.symm⟩

/-- Whenever the Tx data loop terminates with a non-Ok status, the status
is Timeout and the handle carries the timeout resets. -/
theorem txDataLoop_timeout (env : HwEnv) (tickstart timeoutMs : Nat) :
    ∀ fuel n h st h1 n1,
      txDataLoop env tickstart timeoutMs fuel n h = some (st, h1, n1) →
      st ≠ HALStatus.ok →
      st = HALStatus.timeout ∧
      h1.gState = HALUartState.ready ∧ h1.rxState = HALUartState.ready ∧
      h1.cr1.rxneie = false ∧ h1.cr1.peie = false ∧ h1.cr1.txeie = false ∧
      h1.cr3.eie = false := by
  intro fuel
  induction fuel with
  | zero =>
    intro n h st h1 n1 hres hnok
    rw [txDataLoop] at hres
    split at hres
    · simp only [Option.some.injEq, Prod.mk.injEq] at hres
      exact absurd hres.1.symm hnok
    · exact absurd hres (by simp)
  | succ fuel ih =>
    intro n h st h1 n1 hres hnok
    rw [txDataLoop] at hres
    split at hres
    · simp only [Option.some.injEq, Prod.mk.injEq] at hres
      exact absurd hres.1.symm hnok
    · split at hres
      · exact absurd hres (by simp)
      · rename_i stw hw1 nw hw
        split at hres
        · exact ih _ _ _ _ _ hres hnok
        · rename_i hwnok
          simp only [Option.some.injEq, Prod.mk.injEq] at hres
          obtain ⟨hst, hh, _⟩ := hres
          rcases waitOnFlag_cases _ false tickstart timeoutMs env _ _ _ _ _ _ hw with
            ⟨hok, _⟩ | ⟨htm, hrec⟩
          · exact absurd hok hwnok
          · subst hst hh
            rw [hrec]
            exact ⟨htm, rfl, rfl, rfl, rfl, rfl, rfl⟩

/-- Whenever the Rx data loop terminates with a non-Ok status, the status
is Timeout and the handle carries the timeout resets. -/
theorem rxDataLoop_timeout (env : HwEnv) (tickstart timeoutMs : Nat) :
    ∀ fuel n h st h1 n1,
      rxDataLoop env tickstart timeoutMs fuel n h = some (st, h1, n1) →
      st ≠ HALStatus.ok →
      st = HALStatus.timeout ∧
      h1.gState = HALUartState.ready ∧ h1.rxState = HALUartState.ready ∧
      h1.cr1.rxneie = false ∧ h1.cr1.peie = false ∧ h1.cr1.txeie = false ∧
      h1.cr3.eie = false := by
  intro fuel
  induction fuel with
  | zero =>
    intro n h st h1 n1 hres hnok
    rw [rxDataLoop] at hres
    split at hres
    · simp only [Option.some.injEq, Prod.mk.injEq] at hres
      exact absurd hres.1.symm hnok
    · exact absurd hres (by simp)
  | succ fuel ih =>
    intro n h st h1 n1 hres hnok
    rw [rxDataLoop] at hres
    split at hres
    · simp only [Option.some.injEq, Prod.mk.injEq] at hres
      exact absurd hres.1.symm hnok
    · split at hres
      · exact absurd hres (by simp)
      · rename_i stw hw1 nw hw
        split at hres
        · exact ih _ _ _ _ _ hres hnok
        · rename_i hwnok
          simp only [Option.some.injEq, Prod.mk.injEq] at hres
          obtain ⟨hst, hh, _⟩ := hres
          rcases waitOnFlag_cases _ false tickstart timeoutMs env _ _ _ _ _ _ hw with
            ⟨hok, _⟩ | ⟨htm, hrec⟩
          · exact absurd hok hwnok
          · subst hst hh
            rw [hrec]
            exact ⟨htm, rfl, rfl, rfl, rfl, rfl, rfl⟩

/-- A blocking Transmit that returns Timeout leaves both states Ready and
all four modelled interrupt enables of the timeout path cleared. -/
theorem HAL_UART_Transmit_timeout_resets (h : UartHandle)
    (pData size timeoutMs : Nat) (env : HwEnv) (fuel : Nat) (h1 : UartHandle)
    (hres : HAL_UART_Transmit h pData size timeoutMs env fuel
              = some (HALStatus.timeout, h1)) :
    h1.gState = HALUartState.ready ∧ h1.rxState = HALUartState.ready ∧
    h1.cr1.rxneie = false ∧ h1.cr1.peie = false ∧ h1.cr1.txeie = false ∧
    h1.cr3.eie = false := by
  simp only [HAL_UART_Transmit] at hres
  split at hres
  · split at hres
    · exact absurd hres (by simp)
    · split at hres
      · exact absurd hres (by simp)
      · split at hres
        · exact absurd hres (by simp)
        · rename_i stl hl nl hleq
          split at hres
          · rename_i hlnok
            simp only [Option.some.injEq, Prod.mk.injEq] at hres
            obtain ⟨_, hh⟩ := hres
            subst hh
            exact (txDataLoop_timeout env env.startTick timeoutMs _ _ _ _ _ _ hleq hlnok).2
          · split at hres
            · exact absurd hres (by simp)
            · rename_i stw hw nw hweq
              split at hres
              · rename_i hwnok
                simp only [Option.some.injEq, Prod.mk.injEq] at hres
                obtain ⟨_, hh⟩ := hres
                subst hh
                rcases waitOnFlag_cases _ false env.startTick timeoutMs env
                    _ _ _ _ _ _ hweq with ⟨hok, _⟩ | ⟨_, hrec⟩
                · exact absurd hok hwnok
                · rw [hrec]
                  exact ⟨rfl, rfl, rfl, rfl, rfl, rfl⟩
              · exact absurd hres (by simp)
  · exact absurd hres (by simp)

/-- A blocking Receive that returns Timeout leaves both states Ready and
all four modelled interrupt enables of the timeout path cleared. -/
theorem HAL_UART_Receive_timeout_resets (h : UartHandle)
    (pData size timeoutMs : Nat) (env : HwEnv) (fuel : Nat) (h1 : UartHandle)
    (hres : HAL_UART_Receive h pData size timeoutMs env fuel
              = some (HALStatus.timeout, h1)) :
    h1.gState = HALUartState.ready ∧ h1.rxState = HALUartState.ready ∧
    h1.cr1.rxneie = false ∧ h1.cr1.peie = false ∧ h1.cr1.txeie = false ∧
    h1.cr3.eie = false := by
  simp only [HAL_UART_Receive] at hres
  split at hres
  · split at hres
    · exact absurd hres (by simp)
    · split at hres
      · exact absurd hres (by simp)
      · split at hres
        · exact absurd hres (by simp)
        · rename_i stl hl nl hleq
          split at hres
          · rename_i hlnok
            simp only [Option.some.injEq, Prod.mk.injEq] at hres
            obtain ⟨_, hh⟩ := hres
            subst hh
            exact (rxDataLoop_timeout env env.startTick timeoutMs _ _ _ _ _ _ hleq hlnok).2
          · exact absurd hres (by simp)
  · exact absurd hres (by simp)

/-- A handle running an interrupt-mode transmit, used by witness
instantiations. -/
def hTxItBusy : UartHandle :=
  { hBase with gState := HALUartState.busyTx, cr1 := { cr1Base with txeie := true } }

/-- A handle running an interrupt-mode receive, used by witness
instantiations. -/
def hRxItBusy : UartHandle :=
  { hBase with rxState := HALUartState.busyRx, cr1 := { cr1Base with rxneie := true } }

/-- Claim C5: in a blocking Transmit or Receive with a finite timeout, a
poll of the hardware flag past the deadline makes the shared helper return
Timeout with the TXE, RXNE and PE interrupt enables and EIE cleared and
both states forced to Ready; and whenever the blocking call itself returns
Timeout, no modelled interrupt source remains enabled and both states are
Ready, so the transfer is abandoned rather than resumed. -/
theorem c5_blocking_timeout (flagOf : SRReg → Bool) (tickstart timeoutMs : Nat)
    (env : HwEnv) (fuel n : Nat) (w h g : UartHandle) (pData size : Nat)
    (h1 g1 : UartHandle) :
    (flagOf (env.srAt n) = false → timeoutMs ≠ HAL_MAX_DELAY →
      (timeoutMs = 0 ∨ sub32 (env.tickAt n) tickstart > timeoutMs) →
      UART_WaitOnFlagUntilTimeout flagOf false tickstart timeoutMs env (fuel + 1) n w
        = some (HALStatus.timeout,
            { w with cr1 := { w.cr1 with rxneie := false, peie := false, txeie := false },
                     cr3 := { w.cr3 with eie := false },
                     gState := HALUartState.ready, rxState := HALUartState.ready },
            n + 1)) ∧
    (HAL_UART_Transmit h pData size timeoutMs env fuel = some (HALStatus.timeout, h1) →
      h1.gState = HALUartState.ready ∧ h1.rxState = HALUartState.ready ∧
      h1.cr1.txeie = false ∧ h1.cr1.rxneie = false ∧ h1.cr1.peie = false ∧
      h1.cr3.eie = false) ∧
    (HAL_UART_Receive g pData size timeoutMs env fuel = some (HALStatus.timeout, g1) →
      g1.gState = HALUartState.ready ∧ g1.rxState = HALUartState.ready ∧
      g1.cr1.txeie = false ∧ g1.cr1.rxneie = false ∧ g1.cr1.peie = false ∧
      g1.cr3.eie = false) := by
  refine ⟨?_, ?_, ?_⟩
  · intro hf hfin hd
    rw [UART_WaitOnFlagUntilTimeout, if_pos hf, if_pos ⟨hfin, hd⟩]
  · intro hres
    obtain ⟨a, b, c, d, e, f⟩ :=
      HAL_UART_Transmit_timeout_resets h pData size timeoutMs env fuel h1 hres
    exact ⟨a, b, e, c, d, f⟩
  · intro hres
    obtain ⟨a, b, c, d, e, f⟩ :=
      HAL_UART_Receive_timeout_resets g pData size timeoutMs env fuel g1 hres
    exact ⟨a, b, e, c, d, f⟩

/-- Witness for claim C5 at a concrete stuck environment whose clock is
1000 ticks past the start, a 5 tick deadline and a two-unit transfer. -/
theorem c5_blocking_timeout_witness :
    UART_WaitOnFlagUntilTimeout (fun sr => sr.txe) false 0 5 envStuck 3 0 hBase
      = some (HALStatus.timeout,
          { hBase with
            cr1 := { hBase.cr1 with rxneie := false, peie := false, txeie := false },
            cr3 := { hBase.cr3 with eie := false },
            gState := HALUartState.ready, rxState := HALUartState.ready }, 1) ∧
    ({ hBase with txXferSize := 2, txXferCount := 2 } : UartHandle).gState
      = HALUartState.ready :=
  ⟨(c5_blocking_timeout (fun sr => sr.txe) 0 5 envStuck 2 0 hBase hBase hBase 100 2
      { hBase with txXferSize := 2, txXferCount := 2 }
      { hBase with rxXferSize := 2, rxXferCount := 2 }).1 rfl (by decide)
      (Or.inr (by decide)),
   ((c5_blocking_timeout (fun sr => sr.txe) 0 5 envStuck 2 0 hBase hBase hBase 100 2
      { hBase with txXferSize := 2, txXferCount := 2 }
      { hBase with rxXferSize := 2, rxXferCount := 2 }).2.1 rfl).1⟩

/-- Claim C10: a timeout of the shared helper in a blocking call of one
direction also resets the other direction: a blocking Receive timing out
while an interrupt-mode transmit is in progress forces gState to Ready and
clears TXEIE, and a blocking Transmit timing out while an interrupt-mode
receive is in progress forces RxState to Ready and clears RXNEIE and PEIE;
EIE is cleared in both cases. -/
theorem c10_timeout_cross_direction (h g : UartHandle)
    (pData size timeoutMs : Nat) (env : HwEnv) (fuel : Nat) (h1 g1 : UartHandle)
    (hgt : g.gState = HALUartState.busyTx) (htxe : g.cr1.txeie = true)
    (hbr : h.rxState = HALUartState.busyRx) (hrxe : h.cr1.rxneie = true) :
    (HAL_UART_Receive g pData size timeoutMs env fuel = some (HALStatus.timeout, g1) →
      g1.gState = HALUartState.ready ∧ g1.cr1.txeie = false ∧
      g1.rxState = HALUartState.ready ∧ g1.cr1.rxneie = false ∧
      g1.cr1.peie = false ∧ g1.cr3.eie = false) ∧
    (HAL_UART_Transmit h pData size timeoutMs env fuel = some (HALStatus.timeout, h1) →
      h1.rxState = HALUartState.ready ∧ h1.cr1.rxneie = false ∧
      h1.cr1.peie = false ∧ h1.gState = HALUartState.ready ∧
      h1.cr1.txeie = false ∧ h1.cr3.eie = false) := by
  constructor
  · intro hres
    obtain ⟨a, b, c, d, e, f⟩ :=
      HAL_UART_Receive_timeout_resets g pData size timeoutMs env fuel g1 hres
    exact ⟨a, e, b, c, d, f⟩
  · intro hres
    obtain ⟨a, b, c, d, e, f⟩ :=
      HAL_UART_Transmit_timeout_resets h pData size timeoutMs env fuel h1 hres
    exact ⟨b, c, d, a, e, f⟩

/-- Witness for claim C10: a blocking Receive that times out while an
interrupt-mode transmit was in progress has reset gState to Ready and
cleared TXEIE. -/
theorem c10_timeout_cross_direction_witness :
    hTxItBusy.gState = HALUartState.busyTx ∧ hTxItBusy.cr1.txeie = true ∧
    ({ hBase with rxXferSize := 2, rxXferCount := 2 } : UartHandle).gState
      = HALUartState.ready ∧
    ({ hBase with rxXferSize := 2, rxXferCount := 2 } : UartHandle).cr1.txeie = false :=
  ⟨rfl, rfl,
   ((c10_timeout_cross_direction hRxItBusy hTxItBusy 100 2 5 envStuck 2
      { hBase with txXferSize := 2, txXferCount := 2 }
      { hBase with rxXferSize := 2, rxXferCount := 2 }
      rfl rfl rfl rfl).1 rfl).1,
   ((c10_timeout_cross_direction hRxItBusy hTxItBusy 100 2 5 envStuck 2
      { hBase with txXferSize := 2, txXferCount := 2 }
      { hBase with rxXferSize := 2, rxXferCount := 2 }
      rfl rfl rfl rfl).1 rfl).2.1⟩

end PY32UART
